import Mathlib

/-!
Shallow embedding of the task-synchronization layer of a todo application
(`src/components/TodoList.tsx`, `TodoForm.tsx`, `TodoItem.tsx`).

Each client operation (`fetchTodos`, `addTodo`, `toggleTodo`, `deleteTodo`,
`updateTodo`) is modelled as a pure function of the current in-memory list
and of the outcome of its remote call (an `Except String _` standing for the
supabase response: `.error msg` when the response carried an error, `.ok`
otherwise).  Each operation returns the new list together with the list of
toast notifications it raised during that call.  Timestamps (`created_at`)
are ISO-8601 strings in the source; they compare chronologically as
strings, so they are modelled as `Nat` (epoch instants) with the usual
order — only their total order matters to the client code.
-/

/-- The `Todo` record of `TodoList.tsx` (interface `Todo`).
`description : string | null` becomes `Option String`; the `created_at`
timestamp string is modelled as a `Nat` instant. -/
structure Todo where
  id : String
  title : String
  description : Option String
  completed : Bool
  created_at : Nat
deriving DecidableEq, Repr

/-- Toast severity: the source passes `variant: 'destructive'` on every
error toast and omits the variant (default severity) on success toasts. -/
inductive Variant where
  | normal
  | destructive
deriving DecidableEq, Repr

/-- One call to `toast({ title, description, variant })`. -/
structure Toast where
  title : String
  description : String
  variant : Variant
deriving DecidableEq, Repr

/-- The JavaScript idiom `s || null`: the empty string is falsy, so an empty
description is sent to the store as `null` (absent). -/
def orNull (s : String) : Option String :=
  if s = "" then none else some s

/-- The row payload of the remote insert in `addTodo`
(`{ user_id, title, description: description || null }`). -/
structure InsertPayload where
  user_id : String
  title : String
  description : Option String
deriving DecidableEq, Repr

/-- `addTodo`'s insert payload, built from its arguments and the user id. -/
def insertPayload (user_id title description : String) : InsertPayload :=
  { user_id := user_id, title := title, description := orNull description }

/-- The field set of the remote update in `updateTodo`
(`{ title, description: description || null, updated_at }`); the
`updated_at` timestamp is a wall-clock value and is not modelled. -/
structure UpdatePayload where
  title : String
  description : Option String
deriving DecidableEq, Repr

/-- `updateTodo`'s update payload, built from its arguments. -/
def updatePayload (title description : String) : UpdatePayload :=
  { title := title, description := orNull description }

/-- `addTodo(title, description)` of `TodoList.tsx`: on a successful insert
the store-returned record `data` is prepended (`setTodos([data, ...todos])`)
and a success toast is raised; on failure the list is left alone and an
error toast carries the failure message. -/
def addTodo (todos : List Todo) (title description : String)
    (remote : Except String Todo) : List Todo × List Toast :=
  match remote with
  | Except.ok data =>
      (data :: todos,
       [{ title := "Tarefa adicionada!",
          description := "Sua nova tarefa foi criada com sucesso.",
          variant := Variant.normal }])
  | Except.error msg =>
      (todos,
       [{ title := "Erro ao adicionar tarefa", description := msg,
          variant := Variant.destructive }])

/-- `toggleTodo(id, completed)` of `TodoList.tsx`: on success every todo
whose id matches gets `completed` replaced by the argument
(`todos.map(todo => todo.id === id ? { ...todo, completed } : todo)`)
and the toast wording depends on the new `completed` value. -/
def toggleTodo (todos : List Todo) (id : String) (completed : Bool)
    (remote : Except String Unit) : List Todo × List Toast :=
  match remote with
  | Except.ok _ =>
      (todos.map (fun todo =>
          if todo.id = id then { todo with completed := completed } else todo),
       [if completed then
          { title := "Tarefa concluída!",
            description := "Parabéns por concluir a tarefa!",
            variant := Variant.normal }
        else
          { title := "Tarefa reaberta",
            description := "Tarefa marcada como pendente.",
            variant := Variant.normal }])
  | Except.error msg =>
      (todos,
       [{ title := "Erro ao atualizar tarefa", description := msg,
          variant := Variant.destructive }])

/-- `deleteTodo(id)` of `TodoList.tsx`: on success
`setTodos(todos.filter(todo => todo.id !== id))` plus a success toast. -/
def deleteTodo (todos : List Todo) (id : String)
    (remote : Except String Unit) : List Todo × List Toast :=
  match remote with
  | Except.ok _ =>
      (todos.filter (fun todo => todo.id ≠ id),
       [{ title := "Tarefa removida",
          description := "A tarefa foi removida com sucesso.",
          variant := Variant.normal }])
  | Except.error msg =>
      (todos,
       [{ title := "Erro ao remover tarefa", description := msg,
          variant := Variant.destructive }])

/-- `updateTodo(id, title, description)` of `TodoList.tsx`: on success the
local patch is `{ ...todo, title, description }` — note that the raw string
argument is stored locally (`some description`), while the remote payload
normalized it with `description || null`. -/
def updateTodo (todos : List Todo) (id title description : String)
    (remote : Except String Unit) : List Todo × List Toast :=
  match remote with
  | Except.ok _ =>
      (todos.map (fun todo =>
          if todo.id = id then
            { todo with title := title, description := some description }
          else todo),
       [{ title := "Tarefa atualizada!",
          description := "As alterações foram salvas com sucesso.",
          variant := Variant.normal }])
  | Except.error msg =>
      (todos,
       [{ title := "Erro ao atualizar tarefa", description := msg,
          variant := Variant.destructive }])

/-- The component state touched by `fetchTodos`: the `todos` list and the
`loading` flag. -/
structure ListState where
  todos : List Todo
  loading : Bool
deriving DecidableEq, Repr

/-- `fetchTodos` of `TodoList.tsx`: on success `setTodos(data || [])`, on
failure an error toast with the failure message and `todos` untouched;
`setLoading(false)` runs in the `finally` block in both cases. -/
def fetchTodos (s : ListState) (remote : Except String (List Todo)) :
    ListState × List Toast :=
  match remote with
  | Except.ok data => ({ todos := data, loading := false }, [])
  | Except.error msg =>
      ({ s with loading := false },
       [{ title := "Erro ao carregar tarefas", description := msg,
          variant := Variant.destructive }])

/-- The `useEffect` guard of `TodoList.tsx`: `fetchTodos` runs only
`if (user)`; with no user the state is untouched and no remote call is
made (the `remote` argument is simply never consumed). -/
def loadEffect (s : ListState) (user : Option String)
    (remote : Except String (List Todo)) : ListState × List Toast :=
  match user with
  | none => (s, [])
  | some _ => fetchTodos s remote

/-- JavaScript's `String.prototype.trim`: strip leading and trailing
whitespace characters. -/
def jsTrim (s : String) : String :=
  String.mk
    (((s.data.dropWhile Char.isWhitespace).reverse.dropWhile
        Char.isWhitespace).reverse)

/-- `handleSubmit` of `TodoForm.tsx`: returns the `(title, description)`
pair passed to `onSubmit`, or `none` when the submission is rejected by
`if (!title.trim()) return`.  The raw `title` state is forwarded, not its
trimmed form. -/
def handleSubmit (title description : String) : Option (String × String) :=
  if jsTrim title = "" then none else some (title, description)

/-- `handleSaveEdit` of `TodoItem.tsx`: returns the
`(id, title, description)` triple passed to `onUpdate`, or `none` when
rejected by `if (!editTitle.trim()) return`. -/
def handleSaveEdit (todo_id editTitle editDescription : String) :
    Option (String × String × String) :=
  if jsTrim editTitle = "" then none
  else some (todo_id, editTitle, editDescription)

/-- `handleToggle` of `TodoItem.tsx`: calls
`onToggle(todo.id, !todo.completed)` — the caller supplies the negation. -/
def handleToggle (todo : Todo) : String × Bool :=
  (todo.id, !todo.completed)

/-- The local patch applied by one mutating operation on a successful
remote call (the body of its `setTodos`). -/
inductive Op where
  | toggle (id : String) (completed : Bool)
  | update (id title description : String)
  | delete (id : String)
deriving DecidableEq, Repr

/-- Apply an operation's local patch to a list (exactly the `setTodos`
bodies of `toggleTodo`, `updateTodo`, `deleteTodo` on success). -/
def applyPatch (op : Op) (todos : List Todo) : List Todo :=
  match op with
  | Op.toggle id completed =>
      todos.map (fun todo =>
        if todo.id = id then { todo with completed := completed } else todo)
  | Op.update id title description =>
      todos.map (fun todo =>
        if todo.id = id then
          { todo with title := title, description := some description }
        else todo)
  | Op.delete id => todos.filter (fun todo => todo.id ≠ id)

/-- Two operations issued from the same render snapshot `s0` whose remote
calls are in flight simultaneously.  Each handler closed over `todos = s0`,
so each resolution runs `setTodos(<patch applied to s0>)`: the first patch
is overwritten when the second resolves.  This is the closure-capture
semantics of `setTodos(todos.map(...))` — not the functional-updater form. -/
def resolveBothCaptured (s0 : List Todo) (op1 op2 : Op) : List Todo :=
  let afterFirst := applyPatch op1 s0
  let afterSecond := applyPatch op2 s0
  let _ := afterFirst
  afterSecond

/-- One user-visible operation together with its remote outcome, for
stating trace-level invariants. -/
inductive Event where
  | load (result : Except String (List Todo))
  | create (title description : String) (result : Except String Todo)
  | toggle (id : String) (completed : Bool) (result : Except String Unit)
  | update (id title description : String) (result : Except String Unit)
  | delete (id : String) (result : Except String Unit)
deriving Repr

/-- The effect of one event on the in-memory list. -/
def stepTodos (todos : List Todo) (e : Event) : List Todo :=
  match e with
  | Event.load r => (fetchTodos { todos := todos, loading := true } r).1.todos
  | Event.create title d r => (addTodo todos title d r).1
  | Event.toggle id c r => (toggleTodo todos id c r).1
  | Event.update id t d r => (updateTodo todos id t d r).1
  | Event.delete id r => (deleteTodo todos id r).1

/-- Sorted by `created_at` descending (newest first). -/
def sortedDesc (l : List Todo) : Prop :=
  l.Pairwise (fun a b => b.created_at ≤ a.created_at)

instance : DecidablePred sortedDesc := fun l =>
  List.instDecidablePairwise l

/-- The environment contract assumed of the remote store at one event:
a successful fetch delivers a descending list, and a record returned by a
successful insert carries a `created_at` at least as late as every task
already in the list (creation time is always now). -/
def eventOk (todos : List Todo) (e : Event) : Prop :=
  match e with
  | Event.load (Except.ok data) => sortedDesc data
  | Event.create _ _ (Except.ok t) =>
      ∀ u ∈ todos, u.created_at ≤ t.created_at
  | _ => True

instance : ∀ todos e, Decidable (eventOk todos e) := fun todos e =>
  match e with
  | Event.load (Except.ok data) =>
      inferInstanceAs (Decidable (sortedDesc data))
  | Event.load (Except.error _) => inferInstanceAs (Decidable True)
  | Event.create _ _ (Except.ok t) =>
      inferInstanceAs (Decidable (∀ u ∈ todos, u.created_at ≤ t.created_at))
  | Event.create _ _ (Except.error _) => inferInstanceAs (Decidable True)
  | Event.toggle _ _ _ => inferInstanceAs (Decidable True)
  | Event.update _ _ _ _ => inferInstanceAs (Decidable True)
  | Event.delete _ _ => inferInstanceAs (Decidable True)

/-- The store contract holds at every step of a trace. -/
def tracedOk : List Todo → List Event → Prop
  | _, [] => True
  | todos, e :: es => eventOk todos e ∧ tracedOk (stepTodos todos e) es

instance instDecidableTracedOk : ∀ todos es, Decidable (tracedOk todos es)
  | _, [] => inferInstanceAs (Decidable True)
  | todos, e :: rest =>
      have : Decidable (tracedOk (stepTodos todos e) rest) :=
        instDecidableTracedOk (stepTodos todos e) rest
      inferInstanceAs
        (Decidable (eventOk todos e ∧ tracedOk (stepTodos todos e) rest))

/-- Sample tasks for concrete witnesses. -/
def taskA : Todo :=
  { id := "1", title := "Buy milk", description := none,
    completed := false, created_at := 1 }

def taskB : Todo :=
  { id := "2", title := "Walk dog", description := some "in the park",
    completed := false, created_at := 2 }

def taskC : Todo :=
  { id := "3", title := "Water plants", description := none,
    completed := false, created_at := 3 }

/-- Mapping a function over a list relates each element to its image. -/
theorem forall₂_map_image {α β : Type} (f : α → β) (l : List α) :
    List.Forall₂ (fun a b => b = f a) l (l.map f) := by
  induction l with
  | nil => exact List.Forall₂.nil
  | cons a l ih => exact List.Forall₂.cons rfl ih

/-- C1: if the remote insert fails, `create` returns the prior task list
unchanged (same list, hence same length, elements and order) and raises
exactly one notification, an error toast whose description is the
failure's message. -/
theorem create_failure_leaves_tasks_and_raises_one_error
    (todos : List Todo) (title description msg : String) :
    addTodo todos title description (Except.error msg) =
      (todos,
       [{ title := "Erro ao adicionar tarefa", description := msg,
          variant := Variant.destructive }]) := rfl

/-- C3: a successful `toggle(id, c)` relates the old and new lists
pointwise (same length and order): every task keeps its `id`, `title`,
`description` and `created_at`, the matching task's `completed` becomes
`c` and every other task's `completed` is unchanged; the single success
toast uses the completed wording when `c` is true and the reopened
wording when `c` is false. -/
theorem toggle_success_patches_only_matching
    (todos : List Todo) (id : String) (c : Bool) :
    List.Forall₂
      (fun a b =>
        b.id = a.id ∧ b.title = a.title ∧ b.description = a.description ∧
        b.created_at = a.created_at ∧
        b.completed = (if a.id = id then c else a.completed))
      todos (toggleTodo todos id c (Except.ok ())).1 ∧
    (toggleTodo todos id c (Except.ok ())).1.length = todos.length ∧
    (toggleTodo todos id c (Except.ok ())).2 =
      [if c then
        { title := "Tarefa concluída!",
          description := "Parabéns por concluir a tarefa!",
          variant := Variant.normal }
       else
        { title := "Tarefa reaberta",
          description := "Tarefa marcada como pendente.",
          variant := Variant.normal }] := by
  refine ⟨?_, by simp [toggleTodo], rfl⟩
  refine (forall₂_map_image _ todos).imp ?_
  intro a b hb
  subst hb
  by_cases h : a.id = id <;> simp [h]

/-- C6: a successful `delete(id)` keeps the remaining tasks in their
original relative order (the result is a sublist), a task survives the
deletion exactly when its id differs from the given id, a list containing
no task with that id is returned unchanged, and the single toast is the
removal success toast. -/
theorem delete_success_removes_exactly_matching
    (todos : List Todo) (id : String) :
    ((deleteTodo todos id (Except.ok ())).1).Sublist todos ∧
    (∀ t, t ∈ (deleteTodo todos id (Except.ok ())).1 ↔
      t ∈ todos ∧ t.id ≠ id) ∧
    ((∀ t ∈ todos, t.id ≠ id) →
      (deleteTodo todos id (Except.ok ())).1 = todos) ∧
    (deleteTodo todos id (Except.ok ())).2 =
      [{ title := "Tarefa removida",
         description := "A tarefa foi removida com sucesso.",
         variant := Variant.normal }] := by
  refine ⟨List.filter_sublist todos, ?_, ?_, rfl⟩
  · intro t
    simp [deleteTodo, List.mem_filter]
  · intro h
    simp only [deleteTodo]
    rw [List.filter_eq_self]
    intro t ht
    simpa using h t ht

/-- C6 witness: deleting an id that is not in the list leaves it
unchanged. -/
theorem delete_success_removes_exactly_matching_spot :
    (deleteTodo [taskA] "zzz" (Except.ok ())).1 = [taskA] :=
  (delete_success_removes_exactly_matching [taskA] "zzz").2.2.1 (by decide)

/-- C7: with no identity the load effect leaves any state untouched and
raises nothing whatever the remote would have answered (the call is
skipped); with identity present, a failed fetch keeps `todos` at its
prior value, sets `loading` false and raises the load-error toast with
the failure's message; a successful fetch also sets `loading` false. -/
theorem load_skipped_without_identity_and_failure_handling
    (s : ListState) (u msg : String) (data : List Todo) :
    (∀ remote, loadEffect s none remote = (s, [])) ∧
    (loadEffect s (some u) (Except.error msg)).1.todos = s.todos ∧
    (loadEffect s (some u) (Except.error msg)).1.loading = false ∧
    (loadEffect s (some u) (Except.error msg)).2 =
      [{ title := "Erro ao carregar tarefas", description := msg,
         variant := Variant.destructive }] ∧
    (loadEffect s (some u) (Except.ok data)).1.loading = false :=
  ⟨fun _ => rfl, rfl, rfl, rfl, rfl⟩

/-- C8: the toggle operation performs no negation — on success each
matching task's `completed` becomes exactly the argument as passed — and
the item component's handler supplies the negation of the task's current
`completed`, so a caller-initiated toggle on a task with `completed = b`
patches the matching entries to `completed = !b`. -/
theorem toggle_sets_argument_caller_negates
    (todos : List Todo) (id : String) (c : Bool) (todo : Todo) :
    handleToggle todo = (todo.id, !todo.completed) ∧
    List.Forall₂
      (fun a b =>
        b = if a.id = id then { a with completed := c } else a)
      todos (toggleTodo todos id c (Except.ok ())).1 ∧
    List.Forall₂
      (fun a b =>
        b = if a.id = todo.id then { a with completed := !todo.completed }
            else a)
      todos
      (toggleTodo todos (handleToggle todo).1 (handleToggle todo).2
        (Except.ok ())).1 :=
  ⟨rfl, forall₂_map_image _ todos, forall₂_map_image _ todos⟩

/-- A by-id patch matches nothing when no task carries the id. -/
theorem map_keyed_patch_noop (g : Todo → Todo) (id : String) :
    ∀ todos : List Todo, (∀ t ∈ todos, t.id ≠ id) →
      todos.map (fun todo => if todo.id = id then g todo else todo) = todos
  | [], _ => rfl
  | a :: l, h => by
      have ha : ¬ a.id = id := h a (List.mem_cons_self a l)
      simp only [List.map_cons, if_neg ha]
      rw [map_keyed_patch_noop g id l (fun t ht => h t (List.mem_cons_of_mem a ht))]

/-- C10: when no task in the list has the given id, a successful
`toggle` or `update` still consumes a remote outcome, leaves the list
exactly unchanged (the by-id patch matches nothing) and still raises its
success toast. -/
theorem absent_id_toggle_update_noop_success_toast
    (todos : List Todo) (id : String) (c : Bool) (title description : String)
    (h : ∀ t ∈ todos, t.id ≠ id) :
    (toggleTodo todos id c (Except.ok ())).1 = todos ∧
    (toggleTodo todos id c (Except.ok ())).2 =
      [if c then
        { title := "Tarefa concluída!",
          description := "Parabéns por concluir a tarefa!",
          variant := Variant.normal }
       else
        { title := "Tarefa reaberta",
          description := "Tarefa marcada como pendente.",
          variant := Variant.normal }] ∧
    (updateTodo todos id title description (Except.ok ())).1 = todos ∧
    (updateTodo todos id title description (Except.ok ())).2 =
      [{ title := "Tarefa atualizada!",
         description := "As alterações foram salvas com sucesso.",
         variant := Variant.normal }] := by
  exact ⟨map_keyed_patch_noop _ id todos h, rfl,
         map_keyed_patch_noop _ id todos h, rfl⟩

/-- C10 witness: a successful toggle and update on an id absent from a
concrete one-task list leave it unchanged. -/
theorem absent_id_toggle_update_noop_success_toast_spot :
    (toggleTodo [taskA] "zzz" true (Except.ok ())).1 = [taskA] ∧
    (updateTodo [taskA] "zzz" "T" "D" (Except.ok ())).1 = [taskA] := by
  have h := absent_id_toggle_update_noop_success_toast [taskA] "zzz" true
    "T" "D" (by decide)
  exact ⟨h.1, h.2.2.1⟩

/-- One event preserves the descending order of the list, under the store
contract for that event. -/
theorem sortedDesc_step (todos : List Todo) (e : Event)
    (hs : sortedDesc todos) (he : eventOk todos e) :
    sortedDesc (stepTodos todos e) := by
  cases e with
  | load r =>
      cases r with
      | ok data => exact he
      | error msg => exact hs
  | create title d r =>
      cases r with
      | ok t => exact List.pairwise_cons.mpr ⟨he, hs⟩
      | error msg => exact hs
  | toggle id c r =>
      cases r with
      | ok u =>
          refine List.Pairwise.map _ ?_ hs
          intro a b hab
          by_cases h1 : a.id = id <;> by_cases h2 : b.id = id <;>
            simpa [h1, h2] using hab
      | error msg => exact hs
  | update id t d r =>
      cases r with
      | ok u =>
          refine List.Pairwise.map _ ?_ hs
          intro a b hab
          by_cases h1 : a.id = id <;> by_cases h2 : b.id = id <;>
            simpa [h1, h2] using hab
      | error msg => exact hs
  | delete id r =>
      cases r with
      | ok u => exact List.Pairwise.filter _ hs
      | error msg => exact hs

/-- Descending order is an invariant of every well-behaved trace. -/
theorem sortedDesc_trace (es : List Event) :
    ∀ todos : List Todo, sortedDesc todos → tracedOk todos es →
      sortedDesc (es.foldl stepTodos todos) := by
  induction es with
  | nil => exact fun todos hs _ => hs
  | cons e rest ih =>
      intro todos hs ht
      exact ih (stepTodos todos e) (sortedDesc_step todos e hs ht.1) ht.2

/-- C2: a successful create prepends the store-returned record at the
head without re-sorting, and for every sequence of operations starting
from the empty list — assuming the store delivers fetches in descending
order and assigns each created record a `created_at` at least as late as
every task already present — the resulting list is sorted by `created_at`
descending. -/
theorem list_always_sorted_desc :
    (∀ (todos : List Todo) (title d : String) (t : Todo),
      (addTodo todos title d (Except.ok t)).1 = t :: todos) ∧
    ∀ es : List Event, tracedOk [] es → sortedDesc (es.foldl stepTodos []) :=
  ⟨fun _ _ _ _ => rfl,
   fun es h => sortedDesc_trace es [] List.Pairwise.nil h⟩

/-- C2 witness: a concrete trace — load two tasks, create a newer one,
toggle one, delete another — satisfies the store contract and ends
sorted descending. -/
theorem list_always_sorted_desc_spot :
    tracedOk []
      [Event.load (Except.ok [taskB, taskA]),
       Event.create "Water plants" "" (Except.ok taskC),
       Event.toggle "1" true (Except.ok ()),
       Event.delete "2" (Except.ok ())] ∧
    sortedDesc
      ([Event.load (Except.ok [taskB, taskA]),
        Event.create "Water plants" "" (Except.ok taskC),
        Event.toggle "1" true (Except.ok ()),
        Event.delete "2" (Except.ok ())].foldl stepTodos []) :=
  ⟨by decide,
   list_always_sorted_desc.2
     [Event.load (Except.ok [taskB, taskA]),
      Event.create "Water plants" "" (Except.ok taskC),
      Event.toggle "1" true (Except.ok ()),
      Event.delete "2" (Except.ok ())] (by decide)⟩

/-- C4 counterexample: updating the task with id "2" in the one-task list
`[taskB]` to title "Walk cat" with the empty-string description leaves the
in-memory description as the present empty string `some ""`, not the
absent value `none` that the claim requires. -/
theorem update_empty_description_stays_present_locally :
    (updateTodo [taskB] "2" "Walk cat" "" (Except.ok ())).1 =
      [{ taskB with title := "Walk cat", description := some "" }] ∧
    (updateTodo [taskB] "2" "Walk cat" "" (Except.ok ())).1 ≠
      [{ taskB with title := "Walk cat", description := none }] := by
  decide

/-- C4 amended: a successful `update(id, title, "")` normalizes the empty
description to absent only in the remote payload (`description || null`);
the local patch stores the raw argument, so the matching in-memory task
ends with `description = some ""` (present empty string), disagreeing
with what was persisted remotely. -/
theorem update_empty_description_remote_absent_local_empty
    (todos : List Todo) (id title : String) :
    (updatePayload title "").description = none ∧
    List.Forall₂
      (fun a b =>
        b = if a.id = id then
              { a with title := title, description := some "" }
            else a)
      todos (updateTodo todos id title "" (Except.ok ())).1 :=
  ⟨rfl, forall₂_map_image _ todos⟩

/-- C5 counterexample: with the typed title " a " (non-empty after
trimming) the form submits, but the title passed to `create` is the raw
" a ", which differs from its trim "a" — the argument is not
pre-trimmed. -/
theorem submitted_title_not_trimmed :
    handleSubmit " a " "d" = some (" a ", "d") ∧
    jsTrim " a " = "a" ∧
    " a " ≠ "a" := by
  decide

/-- C5 amended: both callers reject a submission exactly when the typed
title trims to empty, and forward the raw (untrimmed) title; hence every
title reaching `create` or `update` — and hence every title placed in a
store payload, which copies it verbatim — has a non-empty trim and in
particular is non-empty and not whitespace-only, though it may carry
surrounding whitespace. -/
theorem callers_reject_blank_titles :
    (∀ title description t d : String,
      handleSubmit title description = some (t, d) →
        t = title ∧ jsTrim t ≠ "" ∧ t ≠ "") ∧
    (∀ tid eT eD i t d : String,
      handleSaveEdit tid eT eD = some (i, t, d) →
        t = eT ∧ jsTrim t ≠ "" ∧ t ≠ "") ∧
    (∀ u t d : String, (insertPayload u t d).title = t) ∧
    (∀ t d : String, (updatePayload t d).title = t) := by
  refine ⟨?_, ?_, fun _ _ _ => rfl, fun _ _ => rfl⟩
  · intro title description t d h
    by_cases hb : jsTrim title = ""
    · simp [handleSubmit, hb] at h
    · simp only [handleSubmit, if_neg hb, Option.some.injEq, Prod.mk.injEq] at h
      refine ⟨h.1.symm, h.1 ▸ hb, ?_⟩
      intro he
      rw [h.1, he] at hb
      exact hb rfl
  · intro tid eT eD i t d h
    by_cases hb : jsTrim eT = ""
    · simp [handleSaveEdit, hb] at h
    · simp only [handleSaveEdit, if_neg hb, Option.some.injEq, Prod.mk.injEq] at h
      refine ⟨h.2.1.symm, h.2.1 ▸ hb, ?_⟩
      intro he
      rw [h.2.1, he] at hb
      exact hb rfl

/-- C5 witness: the form submission with typed title " a " goes through
with the raw title, whose trim is non-empty and which is non-empty. -/
theorem callers_reject_blank_titles_spot :
    " a " = " a " ∧ jsTrim " a " ≠ "" ∧ " a " ≠ "" :=
  callers_reject_blank_titles.1 " a " "d" " a " "d" (by decide)

/-- C9: at the concrete input below — two pending tasks, a toggle of task
"1" and a toggle of task "2" issued from the same render snapshot with
both remote calls in flight — the two patches do commute when applied
sequentially, yet the code's closure-captured `setTodos(todos.map(...))`
resolves the second operation against the stale snapshot and the first
toggle's effect is lost: task "1" ends not completed. -/
theorem concurrent_inflight_first_patch_lost :
    applyPatch (Op.toggle "2" true) (applyPatch (Op.toggle "1" true)
        [taskA, taskB]) =
      applyPatch (Op.toggle "1" true) (applyPatch (Op.toggle "2" true)
        [taskA, taskB]) ∧
    resolveBothCaptured [taskA, taskB] (Op.toggle "1" true)
        (Op.toggle "2" true) =
      [taskA, { taskB with completed := true }] ∧
    resolveBothCaptured [taskA, taskB] (Op.toggle "1" true)
        (Op.toggle "2" true) ≠
      applyPatch (Op.toggle "2" true) (applyPatch (Op.toggle "1" true)
        [taskA, taskB]) ∧
    (resolveBothCaptured [taskA, taskB] (Op.toggle "1" true)
        (Op.toggle "2" true)).map Todo.completed = [false, true] := by
  decide
